import Mathlib

/-!
Shallow embedding of `bredlynbot.py`: a Discord bot relaying osu! player
statistics.  The embedded components are the ones the specification covers:

* `TopPlaysPaginator` — the paginated result browser (class
  `TopPlaysPaginator` in the source): a fixed score list, a page size, a
  current page and a maximum page index, with the four navigation button
  handlers as state transitions.
* `UserLinkManager` — the account link store (`link_user`, `unlink_user`,
  `get_linked_user`, `_load_links`, `_save_links`).
* The command handlers `profile`, `link`, `recent` and `top`, modelled as
  pure outcome functions parameterised over the external osu! API
  collaborator.

Python integers are embedded as `Int` (with `Int.fdiv` for Python's floor
division `//`), Python lists as `List`, Python dicts as association lists
with distinct keys (`AList`).  Score records are opaque: the paginator never
inspects them, it only slices the list, so it is parameterised over the
element type.
-/

namespace Bredlynbot

/-! ## Paginated result browser: `TopPlaysPaginator` -/

/-- State of `TopPlaysPaginator.__init__`'s instance fields that the paging
logic reads and writes: `scores`, `per_page`, `current_page`, `max_pages`.
`α` stands for the (opaque) score-record dictionaries. -/
structure TopPlaysPaginator (α : Type) where
  scores : List α
  per_page : Int
  current_page : Int
  max_pages : Int
deriving Repr, DecidableEq

namespace TopPlaysPaginator

/-- `TopPlaysPaginator.__init__(scores, user, mode, per_page)`:
`current_page = 0`, `max_pages = (len(scores) - 1) // per_page`
(Python `//` is floor division, i.e. `Int.fdiv`). -/
def init (scores : List α) (per_page : Int := 10) : TopPlaysPaginator α :=
  { scores := scores
    per_page := per_page
    current_page := 0
    max_pages := Int.fdiv ((scores.length : Int) - 1) per_page }

/-- The enabled/disabled state of the four navigation buttons, as set by
`update_buttons`. -/
structure ButtonStates where
  first_disabled : Bool
  prev_disabled : Bool
  next_disabled : Bool
  last_disabled : Bool
deriving Repr, DecidableEq

/-- `update_buttons`: `first`/`prev` disabled when `current_page == 0`,
`next`/`last` disabled when `current_page >= max_pages`. -/
def update_buttons (p : TopPlaysPaginator α) : ButtonStates :=
  { first_disabled := decide (p.current_page = 0)
    prev_disabled := decide (p.current_page = 0)
    next_disabled := decide (p.current_page ≥ p.max_pages)
    last_disabled := decide (p.current_page ≥ p.max_pages) }

/-- Python list slicing `l[s:e]` (step 1): negative indices count from the
end, then both bounds are clamped into `[0, len(l)]`. -/
def pySlice (l : List α) (s e : Int) : List α :=
  let n : Int := l.length
  let s' : Int := if s < 0 then max 0 (n + s) else min s n
  let e' : Int := if e < 0 then max 0 (n + e) else min e n
  (l.take e'.toNat).drop s'.toNat

/-- The `page_scores` slice computed by `get_embed`:
`start_idx = current_page * per_page`,
`end_idx = min(start_idx + per_page, len(scores))`,
`page_scores = scores[start_idx:end_idx]`.
(The rest of `get_embed` only formats these records into an embed.) -/
def get_embed_page (p : TopPlaysPaginator α) : List α :=
  let start_idx := p.current_page * p.per_page
  let end_idx := min (start_idx + p.per_page) (p.scores.length : Int)
  pySlice p.scores start_idx end_idx

/-- `first_button`: `current_page = 0`. -/
def first_button (p : TopPlaysPaginator α) : TopPlaysPaginator α :=
  { p with current_page := 0 }

/-- `prev_button`: `current_page = max(0, current_page - 1)`. -/
def prev_button (p : TopPlaysPaginator α) : TopPlaysPaginator α :=
  { p with current_page := max 0 (p.current_page - 1) }

/-- `next_button`: `current_page = min(max_pages, current_page + 1)`. -/
def next_button (p : TopPlaysPaginator α) : TopPlaysPaginator α :=
  { p with current_page := min p.max_pages (p.current_page + 1) }

/-- `last_button`: `current_page = max_pages`. -/
def last_button (p : TopPlaysPaginator α) : TopPlaysPaginator α :=
  { p with current_page := p.max_pages }

end TopPlaysPaginator

/-- The four navigation actions (the delete button destroys the session and
is not a page transition). -/
inductive Nav
  | first
  | previous
  | next
  | last
deriving Repr, DecidableEq

/-- One navigation interaction: the button handler updates `current_page`
(and then calls `update_buttons` and re-renders, which do not change the
paging state). -/
def step (p : TopPlaysPaginator α) : Nav → TopPlaysPaginator α
  | .first => p.first_button
  | .previous => p.prev_button
  | .next => p.next_button
  | .last => p.last_button

/-- A sequence of navigation interactions applied in order. -/
def run (p : TopPlaysPaginator α) (navs : List Nav) : TopPlaysPaginator α :=
  navs.foldl step p

/-! ## Account link store: `UserLinkManager` -/

/-- One value of the `user_links.json` dict:
`{"osu_username": ..., "mode": ...}`. -/
structure LinkRecord where
  osu_username : String
  mode : String
deriving Repr, DecidableEq

/-- The in-memory `self.links` dict, keyed by `str(discord_id)`.  A Python
dict is a finite map with distinct keys; `AList` is its embedding. -/
abbrev Links := AList (fun _ : String => LinkRecord)

namespace UserLinkManager

/-- `_load_links`: reading and parsing `user_links.json`.  The file I/O is
external; its result is the parameter — `some m` when the file exists and
parses to the dict `m`, `none` when the file is missing or any exception is
raised.  Both the missing-file path and the `except` path return `{}`. -/
def load_links (fileContents : Option Links) : Links :=
  match fileContents with
  | some m => m
  | none => ∅

/-- `link_user`: `self.links[str(discord_id)] = {"osu_username": ..., "mode": ...}`,
then `_save_links()`.  Saving does not touch `self.links`. -/
def link_user (links : Links) (discord_id : Nat) (osu_username : String)
    (mode : String := "osu") : Links :=
  links.insert (toString discord_id) ⟨osu_username, mode⟩

/-- `unlink_user`: if `str(discord_id)` is a key, delete it, save, and
return `True`; otherwise return `False`.  Returns the flag and the
resulting in-memory dict. -/
def unlink_user (links : Links) (discord_id : Nat) : Bool × Links :=
  let discord_id_str := toString discord_id
  if discord_id_str ∈ links then (true, links.erase discord_id_str)
  else (false, links)

/-- `get_linked_user`: `self.links.get(str(discord_id))`. -/
def get_linked_user (links : Links) (discord_id : Nat) : Option LinkRecord :=
  links.lookup (toString discord_id)

/-- The in-memory state after `link_user` together with the outcome of the
`_save_links` call it makes.  `saveOk` is whether the file write succeeded;
`_save_links` wraps the write in `try/except` and the `except` branch only
prints, so the dict is the post-mutation one in both branches. -/
def link_user_after_save (links : Links) (discord_id : Nat)
    (osu_username : String) (mode : String) (saveOk : Bool) : Links :=
  let links' := link_user links discord_id osu_username mode
  if saveOk then links' else links'

/-- The in-memory state and return value of `unlink_user` together with the
outcome of its `_save_links` call (made only when a record existed);
as in `link_user_after_save`, a failed save does not alter the dict. -/
def unlink_user_after_save (links : Links) (discord_id : Nat)
    (saveOk : Bool) : Bool × Links :=
  let r := unlink_user links discord_id
  if saveOk then r else r

end UserLinkManager

/-! ## Command handlers

Each `@bot.command` handler is embedded as a pure function from its
arguments, the link store, and the external osu! API collaborator
(`get_user`, `get_recent_scores`, `get_user_best`, passed as function
parameters) to the outcome it sends back to the channel. -/

/-- The fields of the osu! API user dict that the handlers' control flow
reads (`user['username']`, `user['id']`; the rest is only formatted). -/
structure UserProfile where
  username : String
  id : Nat
deriving Repr, DecidableEq

/-- Python `mode or linked['mode']`: `mode` when it is a non-`None`, truthy
(non-empty) string, else the linked mode. -/
def pyStrOr : Option String → String → String
  | some m, d => if m = "" then d else m
  | none, d => d

/-- The username/mode resolution shared verbatim by `profile`, `recent` and
`top`:

```python
if username is None:
    linked = user_links.get_linked_user(ctx.author.id)
    if linked:
        username = linked['osu_username']
        mode = mode or linked['mode']
    else:
        return  # "Please provide a username or link your account"
```

Returns `none` for the no-username-no-link early return, otherwise the
resolved username and the (possibly still absent) mode. -/
def resolve_target (links : Links) (author_id : Nat)
    (username : Option String) (mode : Option String) :
    Option (String × Option String) :=
  match username with
  | some u => some (u, mode)
  | none =>
    match UserLinkManager.get_linked_user links author_id with
    | some linked => some (linked.osu_username, some (pyStrOr mode linked.mode))
    | none => none

/-- Outcome of the `profile` command handler. -/
inductive ProfileOutcome
  | noLink
  | notFound (username mode : String)
  | success (user : UserProfile) (mode : String)
deriving Repr, DecidableEq

/-- The `profile` command handler: resolve the target, default the mode to
`"osu"`, fetch, and report "Could not find user ... in mode ..." when the
fetch returns nothing.  No argument validation happens anywhere. -/
def profile_command (get_user : String → String → Option UserProfile)
    (links : Links) (author_id : Nat)
    (username : Option String) (mode : Option String) : ProfileOutcome :=
  match resolve_target links author_id username mode with
  | none => .noLink
  | some (u, m?) =>
    let m := m?.getD "osu"
    match get_user u m with
    | none => .notFound u m
    | some user => .success user m

/-- Outcome of the `link` command handler. -/
inductive LinkOutcome
  | notFound (username mode : String)
  | linked (links : Links) (mode : String)

/-- The `link` command handler: fetch the profile, report "Could not find
osu! user ... in mode ..." on a failed fetch, otherwise store the link.
The mode string is forwarded to the API unvalidated. -/
def link_command (get_user : String → String → Option UserProfile)
    (links : Links) (author_id : Nat)
    (osu_username : String) (mode : String := "osu") : LinkOutcome :=
  match get_user osu_username mode with
  | none => .notFound osu_username mode
  | some user => .linked (UserLinkManager.link_user links author_id user.username mode) mode

/-- Outcome of the `recent` command handler; `α` is the score-record type. -/
inductive RecentOutcome (α : Type)
  | noLink
  | notFound (username : String)
  | noScores (username : String)
  | scores (served : List α) (mode : String)
deriving Repr, DecidableEq

/-- The `recent` command handler: resolve the target, default the mode,
clamp `limit` with `if limit > 5: limit = 5`, fetch the user then the
recent scores, and send one embed per returned score. -/
def recent_command (get_user : String → String → Option UserProfile)
    (get_recent_scores : Nat → String → Int → List α)
    (links : Links) (author_id : Nat)
    (username : Option String) (mode : Option String) (limit : Int := 1) :
    RecentOutcome α :=
  match resolve_target links author_id username mode with
  | none => .noLink
  | some (u, m?) =>
    let m := m?.getD "osu"
    let limit := if limit > 5 then 5 else limit
    match get_user u m with
    | none => .notFound u
    | some user =>
      match get_recent_scores user.id m limit with
      | [] => .noScores u
      | s => .scores s m

/-- Outcome of the `top` command handler; on success it constructs a
`TopPlaysPaginator` with `per_page=10` over the fetched scores. -/
inductive TopOutcome (α : Type)
  | noLink
  | notFound (username : String)
  | noScores (username : String)
  | paginated (view : TopPlaysPaginator α) (mode : String)
deriving Repr, DecidableEq

/-- The `top` command handler: resolve the target, default the mode, clamp
`limit` with `if limit > 100: limit = 100`, fetch the user then the best
scores, and reply with a `TopPlaysPaginator(scores, user, mode, per_page=10)`. -/
def top_command (get_user : String → String → Option UserProfile)
    (get_user_best : Nat → String → Int → List α)
    (links : Links) (author_id : Nat)
    (username : Option String) (mode : Option String) (limit : Int := 100) :
    TopOutcome α :=
  match resolve_target links author_id username mode with
  | none => .noLink
  | some (u, m?) =>
    let m := m?.getD "osu"
    let limit := if limit > 100 then 100 else limit
    match get_user u m with
    | none => .notFound u
    | some user =>
      match get_user_best user.id m limit with
      | [] => .noScores u
      | s => .paginated (TopPlaysPaginator.init s 10) m

/-- The scores a `recent` reply serves (empty for the error outcomes). -/
def RecentOutcome.servedScores : RecentOutcome α → List α
  | .scores s _ => s
  | _ => []

/-- The scores a `top` reply's paginator holds (empty for the error
outcomes). -/
def TopOutcome.servedScores : TopOutcome α → List α
  | .paginated v _ => v.scores
  | _ => []

/-- Model of the external osu! API score endpoints (spec §4.3, an external
collaborator specified at its interface): given the service-side ordered
score collection, a request with `limit` returns its first `limit` items
(all of them when fewer are available, none for a non-positive limit). -/
def apiTake (available : List α) : Nat → String → Int → List α :=
  fun _ _ limit => available.take limit.toNat

/-! ## Helper lemmas about the paginator transition system -/

theorem step_max_pages (p : TopPlaysPaginator α) (n : Nav) :
    (step p n).max_pages = p.max_pages := by
  cases n <;> rfl

theorem run_max_pages (navs : List Nav) (p : TopPlaysPaginator α) :
    (run p navs).max_pages = p.max_pages := by
  induction navs generalizing p with
  | nil => rfl
  | cons n navs ih => rw [run, List.foldl_cons, ← run, ih, step_max_pages]

theorem step_invariant (p : TopPlaysPaginator α) (n : Nav)
    (h0 : 0 ≤ p.current_page) (h1 : p.current_page ≤ p.max_pages) :
    0 ≤ (step p n).current_page ∧ (step p n).current_page ≤ (step p n).max_pages := by
  cases n <;>
    simp only [step, TopPlaysPaginator.first_button, TopPlaysPaginator.prev_button,
      TopPlaysPaginator.next_button, TopPlaysPaginator.last_button] <;>
    constructor <;> omega

theorem run_invariant (navs : List Nav) (p : TopPlaysPaginator α)
    (h0 : 0 ≤ p.current_page) (h1 : p.current_page ≤ p.max_pages) :
    0 ≤ (run p navs).current_page ∧
    (run p navs).current_page ≤ (run p navs).max_pages := by
  induction navs generalizing p with
  | nil => exact ⟨h0, h1⟩
  | cons n navs ih =>
    rw [run, List.foldl_cons, ← run]
    have h := step_invariant p n h0 h1
    exact ih (step p n) h.1 h.2

theorem init_max_pages_nonneg (scores : List α) (per_page : Int)
    (hN : scores ≠ []) (hpp : 1 ≤ per_page) :
    0 ≤ (TopPlaysPaginator.init scores per_page).max_pages := by
  have hlen : 1 ≤ scores.length := List.length_pos.mpr hN
  apply Int.fdiv_nonneg <;> omega

/-! ## Claims -/

/-- **C1.** For every browser session constructed from a non-empty score
list with `per_page ≥ 1`, `current_page` stays within `[0, max_pages]`
after any sequence of the transitions first, previous, next, last,
starting from the initial page 0. -/
theorem C1_current_page_in_range (scores : List α) (per_page : Int)
    (navs : List Nav) (hN : scores ≠ []) (hpp : 1 ≤ per_page) :
    0 ≤ (run (TopPlaysPaginator.init scores per_page) navs).current_page ∧
    (run (TopPlaysPaginator.init scores per_page) navs).current_page ≤
      (run (TopPlaysPaginator.init scores per_page) navs).max_pages :=
  run_invariant navs _ le_rfl (init_max_pages_nonneg scores per_page hN hpp)

theorem C1_witness :
    0 ≤ (run (TopPlaysPaginator.init ([10, 20, 30] : List Nat) 2)
          [Nav.next, Nav.next, Nav.previous, Nav.last]).current_page ∧
    (run (TopPlaysPaginator.init ([10, 20, 30] : List Nat) 2)
          [Nav.next, Nav.next, Nav.previous, Nav.last]).current_page ≤
      (run (TopPlaysPaginator.init ([10, 20, 30] : List Nat) 2)
          [Nav.next, Nav.next, Nav.previous, Nav.last]).max_pages :=
  C1_current_page_in_range [10, 20, 30] 2
    [Nav.next, Nav.next, Nav.previous, Nav.last] (by decide) (by decide)

/-- **C2.** For every non-empty score list of length `N ≥ 1` and every
`per_page ≥ 1`, the `max_pages` computed at construction — in code,
`(N - 1) // per_page` — equals `⌈N / per_page⌉ - 1`; in particular
`per_page > N` yields `max_pages = 0`. -/
theorem C2_max_pages_eq_ceil (scores : List α) (per_page : Int)
    (hN : scores ≠ []) (hpp : 1 ≤ per_page) :
    (TopPlaysPaginator.init scores per_page).max_pages =
      ⌈(scores.length : ℚ) / (per_page : ℚ)⌉ - 1 ∧
    ((scores.length : Int) < per_page →
      (TopPlaysPaginator.init scores per_page).max_pages = 0) := by
  have hlen : 1 ≤ scores.length := List.length_pos.mpr hN
  set N := scores.length with hNdef
  have hppQ : (0 : ℚ) < (per_page : ℚ) := by exact_mod_cast hpp.trans_lt' (by norm_num)
  have hfd : (TopPlaysPaginator.init scores per_page).max_pages =
      ((N : Int) - 1) / per_page := by
    simp only [TopPlaysPaginator.init]
    exact Int.fdiv_eq_ediv _ (by omega)
  constructor
  · rw [hfd]
    set m : Int := ((N : Int) - 1) / per_page with hm
    have hlow : m * per_page ≤ (N : Int) - 1 := Int.ediv_mul_le _ (by omega)
    have hhigh : (N : Int) - 1 < (m + 1) * per_page :=
      Int.lt_ediv_add_one_mul_self _ (by omega)
    have hlowQ : (m : ℚ) * (per_page : ℚ) ≤ (N : ℚ) - 1 := by exact_mod_cast hlow
    have hhigh' : (N : Int) ≤ (m + 1) * per_page := by
      have h := Int.add_one_le_iff.mpr hhigh
      linarith
    have hhighQ : (N : ℚ) ≤ ((m : ℚ) + 1) * (per_page : ℚ) := by
      exact_mod_cast hhigh'
    have hceil : ⌈(N : ℚ) / (per_page : ℚ)⌉ = m + 1 := by
      rw [Int.ceil_eq_iff]
      constructor
      · rw [lt_div_iff₀ hppQ]
        push_cast
        ring_nf
        ring_nf at hlowQ
        linarith
      · rw [div_le_iff₀ hppQ]
        push_cast
        ring_nf
        ring_nf at hhighQ
        linarith
    omega
  · intro hlt
    rw [hfd]
    exact Int.ediv_eq_zero_of_lt (by omega) (by omega)

theorem C2_witness :
    (TopPlaysPaginator.init ([10, 20, 30] : List Nat) 2).max_pages =
      ⌈((3 : Nat) : ℚ) / ((2 : Int) : ℚ)⌉ - 1 ∧
    (((3 : Nat) : Int) < 2 →
      (TopPlaysPaginator.init ([10, 20, 30] : List Nat) 2).max_pages = 0) :=
  C2_max_pages_eq_ceil [10, 20, 30] 2 (by decide) (by decide)

/-- After `first_button`, any number of `previous` interactions leaves
`current_page = 0`. -/
theorem run_replicate_previous_of_zero (k : Nat) (p : TopPlaysPaginator α)
    (h : p.current_page = 0) :
    (run p (List.replicate k Nav.previous)).current_page = 0 := by
  induction k generalizing p with
  | zero => exact h
  | succ k ih =>
    rw [List.replicate_succ, run, List.foldl_cons, ← run]
    exact ih _ (by simp [step, TopPlaysPaginator.prev_button, h])

/-- After `last_button`, any number of `next` interactions leaves
`current_page = max_pages`. -/
theorem run_replicate_next_of_max (k : Nat) (p : TopPlaysPaginator α)
    (h : p.current_page = p.max_pages) :
    (run p (List.replicate k Nav.next)).current_page =
      (run p (List.replicate k Nav.next)).max_pages := by
  induction k generalizing p with
  | zero => exact h
  | succ k ih =>
    rw [List.replicate_succ, run, List.foldl_cons, ← run]
    refine ih _ ?_
    simp only [step, TopPlaysPaginator.next_button, h]
    omega

/-- The page slice the specification prescribes, written from the spec's
words: `scores[currentPage*pageSize : min((currentPage+1)*pageSize, N))`,
over natural indices.  To be compared with `get_embed_page`, which is
translated from `get_embed` in the source. -/
def specPageSlice (scores : List α) (pageSize page : Nat) : List α :=
  (scores.take (min ((page + 1) * pageSize) scores.length)).drop (page * pageSize)

/-- Closed form of the `get_embed` slice for a state whose page and page
size are (casts of) naturals, as they are on every reachable state. -/
theorem get_embed_page_eq (p : TopPlaysPaginator α) (c q : Nat)
    (hc : p.current_page = (c : Int)) (hq : p.per_page = (q : Int)) :
    p.get_embed_page =
      (p.scores.take (min ((c + 1) * q) p.scores.length)).drop (c * q) := by
  set N := p.scores.length with hN
  set a := c * q with ha
  have hca : (c : Int) * (q : Int) = (a : Int) := by rw [ha]; push_cast; ring
  simp only [TopPlaysPaginator.get_embed_page, TopPlaysPaginator.pySlice,
    hc, hq, hca, ← hN]
  have h1 : ¬ ((a : Int) < 0) := by omega
  have h2 : ¬ (min ((a : Int) + (q : Int)) (N : Int) < 0) := by omega
  rw [if_neg h1, if_neg h2]
  have h3 : (min (min ((a : Int) + (q : Int)) (N : Int)) (N : Int)).toNat =
      min (a + q) N := by omega
  have h4 : (min (a : Int) (N : Int)).toNat = min a N := by omega
  rw [h3, h4]
  have h5 : (c + 1) * q = a + q := by rw [ha]; ring
  rw [h5]
  rcases Nat.le_total a N with h | h
  · rw [min_eq_left h]
  · rw [min_eq_right h]
    have hlen : (p.scores.take (min (a + q) N)).length ≤ N := by
      simp [← hN]
    rw [List.drop_eq_nil_of_le hlen, List.drop_eq_nil_of_le (hlen.trans h)]

/-- **C3.** For every session state with `current_page ∈ [0, max_pages]`
(and a positive page size), `get_embed` renders exactly the slice
`scores[currentPage*pageSize : min((currentPage+1)*pageSize, N))`, and
rendering twice without an intervening transition yields an identical
slice (rendering is a pure function of the state). -/
theorem C3_render_slice (p : TopPlaysPaginator α)
    (h0 : 0 ≤ p.current_page) (h1 : p.current_page ≤ p.max_pages)
    (hpp : 1 ≤ p.per_page) :
    p.get_embed_page =
      specPageSlice p.scores p.per_page.toNat p.current_page.toNat ∧
    p.get_embed_page = p.get_embed_page := by
  refine ⟨?_, rfl⟩
  rw [get_embed_page_eq p p.current_page.toNat p.per_page.toNat
    (Int.toNat_of_nonneg h0).symm (Int.toNat_of_nonneg (by omega)).symm]
  rfl

theorem C3_witness :
    (TopPlaysPaginator.init ([10, 20, 30] : List Nat) 2).get_embed_page =
      specPageSlice ([10, 20, 30] : List Nat)
        ((TopPlaysPaginator.init ([10, 20, 30] : List Nat) 2).per_page.toNat)
        ((TopPlaysPaginator.init ([10, 20, 30] : List Nat) 2).current_page.toNat) ∧
    (TopPlaysPaginator.init ([10, 20, 30] : List Nat) 2).get_embed_page =
      (TopPlaysPaginator.init ([10, 20, 30] : List Nat) 2).get_embed_page :=
  C3_render_slice (TopPlaysPaginator.init [10, 20, 30] 2)
    (by decide) (by decide) (by decide)

/-- **C4.** On every reachable session state (any transition sequence from
construction, after which `update_buttons` has run), the first/previous
controls are disabled iff `current_page = 0`, and the next/last controls
are disabled iff `current_page = max_pages`: the code's
`current_page >= max_pages` test coincides with equality there. -/
theorem C4_button_states (scores : List α) (per_page : Int) (navs : List Nav)
    (hN : scores ≠ []) (hpp : 1 ≤ per_page) :
    ((run (TopPlaysPaginator.init scores per_page) navs).update_buttons.first_disabled = true ↔
      (run (TopPlaysPaginator.init scores per_page) navs).current_page = 0) ∧
    ((run (TopPlaysPaginator.init scores per_page) navs).update_buttons.prev_disabled = true ↔
      (run (TopPlaysPaginator.init scores per_page) navs).current_page = 0) ∧
    ((run (TopPlaysPaginator.init scores per_page) navs).update_buttons.next_disabled = true ↔
      (run (TopPlaysPaginator.init scores per_page) navs).current_page =
        (run (TopPlaysPaginator.init scores per_page) navs).max_pages) ∧
    ((run (TopPlaysPaginator.init scores per_page) navs).update_buttons.last_disabled = true ↔
      (run (TopPlaysPaginator.init scores per_page) navs).current_page =
        (run (TopPlaysPaginator.init scores per_page) navs).max_pages) := by
  have hinv := C1_current_page_in_range scores per_page navs hN hpp
  set p := run (TopPlaysPaginator.init scores per_page) navs
  simp only [TopPlaysPaginator.update_buttons, decide_eq_true_eq, ge_iff_le]
  refine ⟨by simp, by simp, ?_, ?_⟩ <;> omega

theorem C4_witness :
    ((run (TopPlaysPaginator.init ([10, 20, 30] : List Nat) 2)
        [Nav.next]).update_buttons.first_disabled = true ↔
      (run (TopPlaysPaginator.init ([10, 20, 30] : List Nat) 2)
        [Nav.next]).current_page = 0) ∧
    ((run (TopPlaysPaginator.init ([10, 20, 30] : List Nat) 2)
        [Nav.next]).update_buttons.prev_disabled = true ↔
      (run (TopPlaysPaginator.init ([10, 20, 30] : List Nat) 2)
        [Nav.next]).current_page = 0) ∧
    ((run (TopPlaysPaginator.init ([10, 20, 30] : List Nat) 2)
        [Nav.next]).update_buttons.next_disabled = true ↔
      (run (TopPlaysPaginator.init ([10, 20, 30] : List Nat) 2)
        [Nav.next]).current_page =
        (run (TopPlaysPaginator.init ([10, 20, 30] : List Nat) 2)
          [Nav.next]).max_pages) ∧
    ((run (TopPlaysPaginator.init ([10, 20, 30] : List Nat) 2)
        [Nav.next]).update_buttons.last_disabled = true ↔
      (run (TopPlaysPaginator.init ([10, 20, 30] : List Nat) 2)
        [Nav.next]).current_page =
        (run (TopPlaysPaginator.init ([10, 20, 30] : List Nat) 2)
          [Nav.next]).max_pages) :=
  C4_button_states [10, 20, 30] 2 [Nav.next] (by decide) (by decide)

/-- **C5.** `first` followed by any number of `previous` leaves
`current_page = 0`, and `last` followed by any number of `next` leaves
`current_page = max_pages` (boundary transitions are absorbing). -/
theorem C5_boundaries_absorbing (p : TopPlaysPaginator α) (k : Nat) :
    (run p.first_button (List.replicate k Nav.previous)).current_page = 0 ∧
    (run p.last_button (List.replicate k Nav.next)).current_page =
      (run p.last_button (List.replicate k Nav.next)).max_pages := by
  constructor
  · exact run_replicate_previous_of_zero k _ rfl
  · exact run_replicate_next_of_max k _ rfl

/-- The scores `recent` serves never exceed 5, whatever the requested
limit, the resolution outcome, or the service-side collection. -/
theorem recent_served_le_five (get_user : String → String → Option UserProfile)
    (available : List α) (links : Links) (author_id : Nat)
    (username mode : Option String) (limit : Int) :
    (recent_command get_user (apiTake available) links author_id
      username mode limit).servedScores.length ≤ 5 := by
  rcases hres : resolve_target links author_id username mode with _ | ⟨u, m?⟩
  · simp [recent_command, hres, RecentOutcome.servedScores]
  · rcases hgu : get_user u (m?.getD "osu") with _ | user
    · simp [recent_command, hres, hgu, RecentOutcome.servedScores]
    · rcases htake : apiTake available user.id (m?.getD "osu")
        (if limit > 5 then 5 else limit) with _ | ⟨a, t⟩
      · simp [recent_command, hres, hgu, htake, RecentOutcome.servedScores]
      · simp only [recent_command, hres, hgu, htake,
          RecentOutcome.servedScores]
        have hlen : (a :: t).length = (available.take
            (if limit > 5 then (5 : Int) else limit).toNat).length := by
          rw [← htake]; rfl
        rw [hlen]
        have hb : (if limit > 5 then (5 : Int) else limit).toNat ≤ 5 := by
          split <;> omega
        exact (List.length_take_le _ _).trans hb

/-- The scores `top` serves never exceed 100. -/
theorem top_served_le_hundred (get_user : String → String → Option UserProfile)
    (available : List α) (links : Links) (author_id : Nat)
    (username mode : Option String) (limit : Int) :
    (top_command get_user (apiTake available) links author_id
      username mode limit).servedScores.length ≤ 100 := by
  rcases hres : resolve_target links author_id username mode with _ | ⟨u, m?⟩
  · simp [top_command, hres, TopOutcome.servedScores]
  · rcases hgu : get_user u (m?.getD "osu") with _ | user
    · simp [top_command, hres, hgu, TopOutcome.servedScores]
    · rcases htake : apiTake available user.id (m?.getD "osu")
        (if limit > 100 then 100 else limit) with _ | ⟨a, t⟩
      · simp [top_command, hres, hgu, htake, TopOutcome.servedScores]
      · simp only [top_command, hres, hgu, htake, TopOutcome.servedScores,
          TopPlaysPaginator.init]
        have hlen : (a :: t).length = (available.take
            (if limit > 100 then (100 : Int) else limit).toNat).length := by
          rw [← htake]; rfl
        rw [hlen]
        have hb : (if limit > 100 then (100 : Int) else limit).toNat ≤ 100 := by
          split <;> omega
        exact (List.length_take_le _ _).trans hb

/-- **C6.** `recent` serves at most 5 scores and `top` at most 100 for any
requested limit; a limit above the cap is silently reduced to it, not
rejected: `recent` above 5 and `top` above 100 still succeed, serving the
first 5 (resp. 100) available scores, and in particular a `recent` request
with `limit = 50` is served as `limit = 5`, returning `min(5, available)`
scores. -/
theorem C6_limit_clamping (get_user : String → String → Option UserProfile)
    (available : List α) (links : Links) (author_id : Nat)
    (username mode : Option String) (limit : Int)
    (u : String) (prof : UserProfile)
    (hu : get_user u "osu" = some prof) (hav : available ≠ []) :
    (recent_command get_user (apiTake available) links author_id
      username mode limit).servedScores.length ≤ 5 ∧
    (top_command get_user (apiTake available) links author_id
      username mode limit).servedScores.length ≤ 100 ∧
    (limit > 5 →
      recent_command get_user (apiTake available) links author_id
        (some u) (some "osu") limit =
        RecentOutcome.scores (available.take 5) "osu") ∧
    (limit > 100 →
      top_command get_user (apiTake available) links author_id
        (some u) (some "osu") limit =
        TopOutcome.paginated
          (TopPlaysPaginator.init (available.take 100) 10) "osu") ∧
    recent_command get_user (apiTake available) links author_id
      (some u) (some "osu") 50 =
      RecentOutcome.scores (available.take 5) "osu" ∧
    (available.take 5).length = min 5 available.length := by
  obtain ⟨a, t, rfl⟩ := List.exists_cons_of_ne_nil hav
  refine ⟨recent_served_le_five .., top_served_le_hundred .., ?_, ?_, ?_, ?_⟩
  · intro hlim
    simp [recent_command, resolve_target, pyStrOr, hu, apiTake, hlim]
  · intro hlim
    simp [top_command, resolve_target, pyStrOr, hu, apiTake, hlim]
  · simp [recent_command, resolve_target, pyStrOr, hu, apiTake]
  · exact List.length_take 5 (a :: t)

theorem C6_witness :
    (recent_command
      (fun u _ => if u = "peppy" then some ⟨"peppy", 2⟩ else none)
      (apiTake ([10, 20, 30, 40, 50, 60, 70] : List Nat)) ∅ 1
      (some "peppy") (some "osu") 150).servedScores.length ≤ 5 ∧
    (top_command
      (fun u _ => if u = "peppy" then some ⟨"peppy", 2⟩ else none)
      (apiTake ([10, 20, 30, 40, 50, 60, 70] : List Nat)) ∅ 1
      (some "peppy") (some "osu") 150).servedScores.length ≤ 100 ∧
    ((150 : Int) > 5 →
      recent_command
        (fun u _ => if u = "peppy" then some ⟨"peppy", 2⟩ else none)
        (apiTake ([10, 20, 30, 40, 50, 60, 70] : List Nat)) ∅ 1
        (some "peppy") (some "osu") 150 =
        RecentOutcome.scores
          (([10, 20, 30, 40, 50, 60, 70] : List Nat).take 5) "osu") ∧
    ((150 : Int) > 100 →
      top_command
        (fun u _ => if u = "peppy" then some ⟨"peppy", 2⟩ else none)
        (apiTake ([10, 20, 30, 40, 50, 60, 70] : List Nat)) ∅ 1
        (some "peppy") (some "osu") 150 =
        TopOutcome.paginated
          (TopPlaysPaginator.init
            (([10, 20, 30, 40, 50, 60, 70] : List Nat).take 100) 10) "osu") ∧
    recent_command
      (fun u _ => if u = "peppy" then some ⟨"peppy", 2⟩ else none)
      (apiTake ([10, 20, 30, 40, 50, 60, 70] : List Nat)) ∅ 1
      (some "peppy") (some "osu") 50 =
      RecentOutcome.scores (([10, 20, 30, 40, 50, 60, 70] : List Nat).take 5) "osu" ∧
    (([10, 20, 30, 40, 50, 60, 70] : List Nat).take 5).length =
      min 5 ([10, 20, 30, 40, 50, 60, 70] : List Nat).length :=
  C6_limit_clamping
    (fun u _ => if u = "peppy" then some ⟨"peppy", 2⟩ else none)
    [10, 20, 30, 40, 50, 60, 70] ∅ 1 (some "peppy") (some "osu") 150
    "peppy" ⟨"peppy", 2⟩ (by decide) (by decide)

/-- **C7.** `unlink_user` returns `True` exactly when a link record existed
for the chat user, removes it in that case, is a no-op returning `False`
otherwise (it never raises: it is a total function), and in both cases the
store maps no record for that user afterwards. -/
theorem C7_unlink_semantics (links : Links) (discord_id : Nat) :
    ((UserLinkManager.unlink_user links discord_id).1 = true ↔
      (UserLinkManager.get_linked_user links discord_id).isSome) ∧
    UserLinkManager.get_linked_user
      (UserLinkManager.unlink_user links discord_id).2 discord_id = none ∧
    ((UserLinkManager.unlink_user links discord_id).1 = false →
      (UserLinkManager.unlink_user links discord_id).2 = links) := by
  by_cases h : toString discord_id ∈ links
  · refine ⟨?_, ?_, ?_⟩
    · simp [UserLinkManager.unlink_user, UserLinkManager.get_linked_user, h,
        AList.lookup_isSome]
    · simp [UserLinkManager.unlink_user, UserLinkManager.get_linked_user, h,
        AList.lookup_erase]
    · simp [UserLinkManager.unlink_user, h]
  · refine ⟨?_, ?_, ?_⟩
    · simp [UserLinkManager.unlink_user, UserLinkManager.get_linked_user, h,
        AList.lookup_eq_none.mpr h]
    · simp [UserLinkManager.unlink_user, UserLinkManager.get_linked_user, h,
        AList.lookup_eq_none.mpr h]
    · intro _
      simp [UserLinkManager.unlink_user, h]

/-- **C9.** Storage failures never abort or roll back: a failed (or absent)
backing file at startup yields the empty store instead of a crash, and a
failed save during `link_user` or `unlink_user` leaves the in-memory
mapping in its post-mutation state. -/
theorem C9_storage_failure_semantics (links : Links) (discord_id : Nat)
    (osu_username mode : String) (saveOk : Bool) :
    UserLinkManager.load_links none = (∅ : Links) ∧
    UserLinkManager.link_user_after_save links discord_id osu_username mode
        saveOk =
      UserLinkManager.link_user links discord_id osu_username mode ∧
    UserLinkManager.get_linked_user
      (UserLinkManager.link_user_after_save links discord_id osu_username mode
        saveOk) discord_id = some ⟨osu_username, mode⟩ ∧
    UserLinkManager.unlink_user_after_save links discord_id saveOk =
      UserLinkManager.unlink_user links discord_id := by
  refine ⟨rfl, ?_, ?_, ?_⟩
  · simp [UserLinkManager.link_user_after_save]
  · simp only [UserLinkManager.link_user_after_save, ite_self]
    exact AList.lookup_insert _
  · simp [UserLinkManager.unlink_user_after_save]

/-- The closed set of game modes the bot documents (`!osuhelp`: "osu,
taiko, fruits, mania"); used to state C8. -/
def valid_modes : List String := ["osu", "taiko", "fruits", "mania"]

/-- A concrete stand-in for the external osu! API: exactly one user
"peppy" exists, and a request with a mode outside the documented set fails
(returns nothing), as an HTTP request to an unknown mode endpoint does. -/
def demo_get_user : String → String → Option UserProfile :=
  fun u m => if u = "peppy" ∧ m ∈ valid_modes then some ⟨"peppy", 2⟩ else none

/-- **C8 (counterexample).** The code does not treat an out-of-set mode as
a distinct invalid-argument condition: `profile` with the unknown mode
"banana" for an existing user produces the very same `notFound` outcome
("Could not find user ... in mode ...") that a genuinely missing profile
produces, and `link` behaves the same way.  There is no invalid-argument
outcome anywhere in the handlers. -/
theorem C8_counterexample :
    ("banana" ∉ valid_modes) ∧
    demo_get_user "peppy" "osu" = some ⟨"peppy", 2⟩ ∧
    profile_command demo_get_user ∅ 1 (some "peppy") (some "banana") =
      ProfileOutcome.notFound "peppy" "banana" ∧
    profile_command demo_get_user ∅ 1 (some "ghost") (some "osu") =
      ProfileOutcome.notFound "ghost" "osu" ∧
    link_command demo_get_user ∅ 1 "peppy" "banana" =
      LinkOutcome.notFound "peppy" "banana" := by
  refine ⟨by decide, by decide, by decide, by decide, ?_⟩
  simp [link_command, demo_get_user, valid_modes]

/-- **C8 (amended).** The code performs no mode validation: a mode outside
the four documented values is forwarded to the external API unchanged, and
when the resulting fetch fails the handlers report it with the same
not-found outcome used for a missing profile, not as a distinct
invalid-argument condition. -/
theorem C8_amended_no_mode_validation
    (get_user : String → String → Option UserProfile)
    (links : Links) (author_id : Nat) (u m : String)
    (hm : m ∉ valid_modes) (hfail : get_user u m = none) :
    profile_command get_user links author_id (some u) (some m) =
      ProfileOutcome.notFound u m ∧
    link_command get_user links author_id u m = LinkOutcome.notFound u m := by
  constructor
  · simp [profile_command, resolve_target, hfail]
  · simp [link_command, hfail]

theorem C8_amended_witness :
    profile_command demo_get_user ∅ 1 (some "peppy") (some "banana") =
      ProfileOutcome.notFound "peppy" "banana" ∧
    link_command demo_get_user ∅ 1 "peppy" "banana" =
      LinkOutcome.notFound "peppy" "banana" :=
  C8_amended_no_mode_validation demo_get_user ∅ 1 "peppy" "banana"
    (by decide) (by decide)

/-- **C10.** For a user with a stored link who omits the username, an
explicit (non-empty) mode argument takes precedence over the stored mode,
and the stored mode is used only when the mode argument is omitted: for
`profile`, `recent` and `top` alike, the call without a username behaves
exactly like the call with the linked username and the winning mode. -/
theorem C10_explicit_mode_precedence
    (get_user : String → String → Option UserProfile)
    (fetch_recent fetch_best : Nat → String → Int → List α)
    (links : Links) (author_id : Nat) (linked : LinkRecord)
    (m : String) (limit : Int)
    (hlink : UserLinkManager.get_linked_user links author_id = some linked)
    (hm : m ≠ "") :
    resolve_target links author_id none (some m) =
      some (linked.osu_username, some m) ∧
    resolve_target links author_id none none =
      some (linked.osu_username, some linked.mode) ∧
    profile_command get_user links author_id none (some m) =
      profile_command get_user links author_id (some linked.osu_username)
        (some m) ∧
    profile_command get_user links author_id none none =
      profile_command get_user links author_id (some linked.osu_username)
        (some linked.mode) ∧
    recent_command get_user fetch_recent links author_id none (some m) limit =
      recent_command get_user fetch_recent links author_id
        (some linked.osu_username) (some m) limit ∧
    recent_command get_user fetch_recent links author_id none none limit =
      recent_command get_user fetch_recent links author_id
        (some linked.osu_username) (some linked.mode) limit ∧
    top_command get_user fetch_best links author_id none (some m) limit =
      top_command get_user fetch_best links author_id
        (some linked.osu_username) (some m) limit ∧
    top_command get_user fetch_best links author_id none none limit =
      top_command get_user fetch_best links author_id
        (some linked.osu_username) (some linked.mode) limit := by
  have h1 : resolve_target links author_id none (some m) =
      some (linked.osu_username, some m) := by
    simp [resolve_target, hlink, pyStrOr, hm]
  have h2 : resolve_target links author_id none none =
      some (linked.osu_username, some linked.mode) := by
    simp [resolve_target, hlink, pyStrOr]
  have h1' : resolve_target links author_id (some linked.osu_username)
      (some m) = some (linked.osu_username, some m) := rfl
  have h2' : resolve_target links author_id (some linked.osu_username)
      (some linked.mode) = some (linked.osu_username, some linked.mode) := rfl
  refine ⟨h1, h2, ?_, ?_, ?_, ?_, ?_, ?_⟩ <;>
    simp only [profile_command, recent_command, top_command, h1, h2, h1', h2']

theorem C10_witness :
    resolve_target (UserLinkManager.link_user ∅ 7 "peppy" "taiko") 7
      none (some "mania") = some ("peppy", some "mania") ∧
    resolve_target (UserLinkManager.link_user ∅ 7 "peppy" "taiko") 7
      none none = some ("peppy", some "taiko") ∧
    profile_command demo_get_user (UserLinkManager.link_user ∅ 7 "peppy" "taiko")
        7 none (some "mania") =
      profile_command demo_get_user (UserLinkManager.link_user ∅ 7 "peppy" "taiko")
        7 (some "peppy") (some "mania") ∧
    profile_command demo_get_user (UserLinkManager.link_user ∅ 7 "peppy" "taiko")
        7 none none =
      profile_command demo_get_user (UserLinkManager.link_user ∅ 7 "peppy" "taiko")
        7 (some "peppy") (some "taiko") ∧
    recent_command demo_get_user (apiTake ([10, 20] : List Nat))
        (UserLinkManager.link_user ∅ 7 "peppy" "taiko") 7 none (some "mania") 1 =
      recent_command demo_get_user (apiTake ([10, 20] : List Nat))
        (UserLinkManager.link_user ∅ 7 "peppy" "taiko") 7 (some "peppy")
        (some "mania") 1 ∧
    recent_command demo_get_user (apiTake ([10, 20] : List Nat))
        (UserLinkManager.link_user ∅ 7 "peppy" "taiko") 7 none none 1 =
      recent_command demo_get_user (apiTake ([10, 20] : List Nat))
        (UserLinkManager.link_user ∅ 7 "peppy" "taiko") 7 (some "peppy")
        (some "taiko") 1 ∧
    top_command demo_get_user (apiTake ([10, 20] : List Nat))
        (UserLinkManager.link_user ∅ 7 "peppy" "taiko") 7 none (some "mania") 1 =
      top_command demo_get_user (apiTake ([10, 20] : List Nat))
        (UserLinkManager.link_user ∅ 7 "peppy" "taiko") 7 (some "peppy")
        (some "mania") 1 ∧
    top_command demo_get_user (apiTake ([10, 20] : List Nat))
        (UserLinkManager.link_user ∅ 7 "peppy" "taiko") 7 none none 1 =
      top_command demo_get_user (apiTake ([10, 20] : List Nat))
        (UserLinkManager.link_user ∅ 7 "peppy" "taiko") 7 (some "peppy")
        (some "taiko") 1 :=
  C10_explicit_mode_precedence demo_get_user
    (apiTake ([10, 20] : List Nat)) (apiTake ([10, 20] : List Nat))
    (UserLinkManager.link_user ∅ 7 "peppy" "taiko") 7 ⟨"peppy", "taiko"⟩
    "mania" 1 (by decide) (by decide)

end Bredlynbot
